import Mathlib

/-!
Shallow embedding of the dark-site-meetering exporter scripts.

`src/exporter/daily_export.py` (billing CSV export) and
`src/exporter/nutanix_exporter.py` (Prometheus metrics collector) are
translated here as pure functions.  Raw JSON objects are modelled as
structures whose fields are `Option`-valued exactly where the Python code
reads them with `dict.get(key, default)`: `none` models an absent key, and
the `getD` defaults below repeat the defaults written in the source.
Remote calls are modelled by their outcome: `none` for a failed (or falsy)
response, `some payload` for a successful one.  Python `round` operates on
IEEE doubles; quantities are modelled as exact rationals with rounding to
a fixed number of decimals, which agrees except on floating-point ties
that no claim depends on.
-/

namespace DarkSite

/-- Embedded cluster reference of a host/VM (`spec.cluster_reference` /
`status.cluster_reference` JSON object). -/
structure ClusterRef where
  uuid : Option String
  name : Option String
deriving DecidableEq, Repr

/-- One entry of a VM `disk_list`. -/
structure Disk where
  disk_size_bytes : Option Nat
  disk_size_mib : Option Nat
deriving DecidableEq, Repr

/-- `spec.resources` of a VM. -/
structure VmResources where
  num_sockets : Option Nat
  num_vcpus_per_socket : Option Nat
  memory_size_mib : Option Nat
  disk_list : List Disk
deriving DecidableEq, Repr

/-- Empty JSON object used when `spec.get('resources', {})` finds no key. -/
def emptyVmResources : VmResources := ⟨none, none, none, []⟩

/-- `spec` object of a VM. -/
structure VmSpec where
  name : Option String
  description : Option String
  cluster_reference : Option ClusterRef
  resources : Option VmResources
deriving DecidableEq, Repr

/-- `status` object of a VM (only the field the billing export reads). -/
structure VmStatus where
  name : Option String
deriving DecidableEq, Repr

/-- `metadata` object of a VM. -/
structure VmMetadata where
  uuid : Option String
deriving DecidableEq, Repr

/-- One raw VM entity as returned by `vms/list`. -/
structure Vm where
  metadata : VmMetadata
  spec : VmSpec
  status : VmStatus
deriving DecidableEq, Repr

/-- The pass-scoped cluster lookup (`self.cluster_map`), a Python dict
modelled as an association list with unique keys. -/
def dictGet (m : List (String × String)) (k : String) : Option String :=
  (m.find? (fun p => p.1 == k)).map (fun p => p.2)

/-- Python dict assignment `m[k] = v`: overwrite in place or append. -/
def dictInsert (m : List (String × String)) (k v : String) : List (String × String) :=
  if (m.find? (fun p => p.1 == k)).isSome then
    m.map (fun p => if p.1 == k then (k, v) else p)
  else
    m ++ [(k, v)]

/-- One raw cluster entity as read by `get_clusters` / `collect_clusters`
(v3 API): only the three fields the code touches. -/
structure ClusterEntity where
  metadata_uuid : Option String
  spec_name : Option String
  status_name : Option String
deriving DecidableEq, Repr

/-- `NutanixExporter.get_clusters`: build the uuid-to-name map from the
`clusters/list` response (`none` models a failed request). -/
def get_clusters (resp : Option (List ClusterEntity)) : List (String × String) :=
  match resp with
  | none => []
  | some es =>
    es.foldl
      (fun m c =>
        dictInsert m (c.metadata_uuid.getD "")
          (c.spec_name.getD (c.status_name.getD "unknown")))
      []

/-- Cluster-name resolution shared by `collect_vms` (line 280) and
`collect_hosts` (line 343) of the metrics collector:
`cluster_map.get(cluster_ref.get('uuid', ''), ...)` falling back to
`cluster_ref.get('name', 'unknown')`. -/
def resolveClusterName (cluster_map : List (String × String)) (cr : ClusterRef) : String :=
  (dictGet cluster_map (cr.uuid.getD "")).getD (cr.name.getD "unknown")

/-- Resolution rule as the specification words it: mapped name only when the
uuid is non-empty and present; else the embedded name only when non-empty;
else the literal string under quotes. Written from the spec, for comparison
with `resolveClusterName`. -/
def resolveClusterNameSpec (cluster_map : List (String × String)) (cr : ClusterRef) : String :=
  let u := cr.uuid.getD ""
  if u ≠ "" ∧ (dictGet cluster_map u).isSome then
    (dictGet cluster_map u).getD ""
  else if cr.name.getD "" ≠ "" then
    cr.name.getD ""
  else
    "unknown"

/-- Loop body of the disk-size accumulation in `export_to_csv`
(lines 205-211) and `collect_vms` (lines 305-312). -/
def diskStep (acc : Nat) (disk : Disk) : Nat :=
  let ds := disk.disk_size_bytes.getD 0
  if ds ≠ 0 then acc + ds
  else acc + disk.disk_size_mib.getD 0 * 1024 * 1024

/-- Total VM disk bytes: the source's `for disk in disk_list` loop. -/
def totalDiskBytes (disks : List Disk) : Nat :=
  disks.foldl diskStep 0

/-- Per-disk contribution exactly as the claim words it: `disk_size_bytes`
when present and nonzero, otherwise `disk_size_mib × 1024²`. Written from
the spec, for comparison with `totalDiskBytes`. -/
def diskContribution (disk : Disk) : Nat :=
  match disk.disk_size_bytes with
  | some b => if b ≠ 0 then b else disk.disk_size_mib.getD 0 * 1024 * 1024
  | none => disk.disk_size_mib.getD 0 * 1024 * 1024

/-- Python `round(x, 2)` on an exact rational. -/
def round2 (q : ℚ) : ℚ := (round (q * 100) : ℤ) / 100

/-- Python `round(x, 4)` on an exact rational. -/
def round4 (q : ℚ) : ℚ := (round (q * 10000) : ℤ) / 10000

/-- One billing row. The CSV column written as `type` is the field
`entityType` here. -/
structure Row where
  accountId : String
  qty : ℚ
  startDate : String
  endDate : String
  meteredItem : String
  appid : String
  sno : Nat
  fqdn : String
  entityType : String
  description : String
  guid : String
deriving DecidableEq, Repr

/-- Environment configuration and date window of one `export_to_csv` run. -/
structure ExportEnv where
  account_id : String
  app_id : String
  start_date : String
  end_date : String
deriving DecidableEq, Repr

/-- `metadata.get('uuid', '')` of a VM. -/
def vmUuid (vm : Vm) : String := vm.metadata.uuid.getD ""

/-- `spec.get('name', status.get('name', 'unknown'))` of a VM. -/
def vmName (vm : Vm) : String := vm.spec.name.getD (vm.status.name.getD "unknown")

/-- `spec.get('cluster_reference', {}).get('uuid', '')` of a VM. -/
def vmClusterUuid (vm : Vm) : String :=
  ((vm.spec.cluster_reference.getD ⟨none, none⟩).uuid).getD ""

/-- Account column of a VM row in the billing export (line 191):
`self.cluster_map.get(cluster_uuid, ACCOUNT_ID)`. -/
def vmAccount (cluster_map : List (String × String)) (env : ExportEnv) (vm : Vm) : String :=
  (dictGet cluster_map (vmClusterUuid vm)).getD env.account_id

/-- `num_sockets * num_vcpus_per_socket`, both defaulting to 1. -/
def vmVcpus (vm : Vm) : Nat :=
  let r := vm.spec.resources.getD emptyVmResources
  r.num_sockets.getD 1 * r.num_vcpus_per_socket.getD 1

/-- `round(memory_size_mib / 1024, 2)`. -/
def vmMemoryGb (vm : Vm) : ℚ :=
  let r := vm.spec.resources.getD emptyVmResources
  round2 ((r.memory_size_mib.getD 0 : ℚ) / 1024)

/-- `round(total_disk_bytes / (1024 ** 3), 2)`. -/
def vmDiskGb (vm : Vm) : ℚ :=
  let r := vm.spec.resources.getD emptyVmResources
  round2 ((totalDiskBytes r.disk_list : ℚ) / (1024 ^ 3))

/-- The three rows appended for one VM (lines 214-260), with the running
sequence number at the first of them. -/
def vmRowsFor (cluster_map : List (String × String)) (env : ExportEnv)
    (vm : Vm) (sno : Nat) : List Row :=
  let name := vmName vm
  let acct := vmAccount cluster_map env vm
  let uuid := vmUuid vm
  [ { accountId := acct, qty := (vmVcpus vm : ℚ), startDate := env.start_date,
      endDate := env.end_date, meteredItem := "vCPU", appid := env.app_id,
      sno := sno, fqdn := name, entityType := "VM",
      description := "vCPU allocation for " ++ name, guid := uuid },
    { accountId := acct, qty := vmMemoryGb vm, startDate := env.start_date,
      endDate := env.end_date, meteredItem := "Memory_GB", appid := env.app_id,
      sno := sno + 1, fqdn := name, entityType := "VM",
      description := "Memory allocation for " ++ name, guid := uuid },
    { accountId := acct, qty := vmDiskGb vm, startDate := env.start_date,
      endDate := env.end_date, meteredItem := "Storage_GB", appid := env.app_id,
      sno := sno + 2, fqdn := name, entityType := "VM",
      description := "Storage allocation for " ++ name, guid := uuid } ]

/-- The `for vm in vms` loop of `export_to_csv`: rows plus the sequence
number left for the next loop (each VM advances `sno` three times). -/
def exportVmRows (cluster_map : List (String × String)) (env : ExportEnv) :
    List Vm → Nat → List Row × Nat
  | [], sno => ([], sno)
  | vm :: rest, sno =>
    let tail := exportVmRows cluster_map env rest (sno + 3)
    (vmRowsFor cluster_map env vm sno ++ tail.1, tail.2)

/-- Normalized file-server record built by `get_file_servers`. -/
structure FileServer where
  uuid : String
  name : String
  capacity_bytes : Nat
  used_bytes : Nat
  available_bytes : Nat
deriving DecidableEq, Repr

/-- The `Files_TiB` row appended for one file server (lines 270-283). -/
def fsRowFor (env : ExportEnv) (fs : FileServer) (sno : Nat) : Row :=
  { accountId := env.account_id,
    qty := round4 ((fs.used_bytes : ℚ) / (1024 ^ 4)),
    startDate := env.start_date, endDate := env.end_date,
    meteredItem := "Files_TiB", appid := env.app_id, sno := sno,
    fqdn := fs.name, entityType := "FileServer",
    description := "Files consumed storage for " ++ fs.name, guid := fs.uuid }

/-- The `for fs in file_servers` loop of `export_to_csv`: a row (and a
`sno` increment) only when `used_bytes > 0`. -/
def exportFsRows (env : ExportEnv) : List FileServer → Nat → List Row × Nat
  | [], sno => ([], sno)
  | fs :: rest, sno =>
    if 0 < fs.used_bytes then
      let tail := exportFsRows env rest (sno + 1)
      (fsRowFor env fs sno :: tail.1, tail.2)
    else
      exportFsRows env rest sno

/-- The file servers for which `export_to_csv` emits a row. -/
def emittedFileServers (fss : List FileServer) : List FileServer :=
  fss.filter (fun fs => decide (0 < fs.used_bytes))

/-- Full row list of one `export_to_csv` run: VM rows first (sequence
numbers from 1), then file-server rows continuing the same counter. -/
def exportRows (cluster_map : List (String × String)) (env : ExportEnv)
    (vms : List Vm) (fss : List FileServer) : List Row :=
  let vpart := exportVmRows cluster_map env vms 1
  let fpart := exportFsRows env fss vpart.2
  vpart.1 ++ fpart.1

/-- `NutanixExporter.export_to_csv` outcome: `none` models the early
`return None` at lines 171-173 (no file is written); `some rows` models a
written file holding the header plus `rows`. -/
def export_to_csv (cluster_map : List (String × String)) (env : ExportEnv)
    (vms : List Vm) (fss : List FileServer) : Option (List Row) :=
  if vms.isEmpty then none
  else some (exportRows cluster_map env vms fss)

/-- One entry of the file-server identity listing
(`files/v4.0/config/file-servers` response `data` array). -/
structure FsIdentity where
  extId : Option String
  name : Option String
deriving DecidableEq, Repr

/-- One point of a time-series array in the stats payload. -/
structure TimePoint where
  value : Option Nat
deriving DecidableEq, Repr

/-- The `data` object of one `files/v4.0/stats/file-servers/<id>` response. -/
structure FsStatsPayload where
  storageCapacityBytes : Option Nat
  usedCapacityBytes : Option Nat
  availableCapacityBytes : Option Nat
  numberOfFiles : List TimePoint
  numberOfConnections : List TimePoint
deriving DecidableEq, Repr

/-- Record appended by `get_file_servers` for a server whose stats call
succeeded: every storage field defaults to 0 when absent. -/
def mkFileServer (fs : FsIdentity) (st : FsStatsPayload) : FileServer :=
  { uuid := fs.extId.getD "",
    name := fs.name.getD "unknown",
    capacity_bytes := st.storageCapacityBytes.getD 0,
    used_bytes := st.usedCapacityBytes.getD 0,
    available_bytes := st.availableCapacityBytes.getD 0 }

/-- Loop body of `get_file_servers`: a server is appended only inside
`if stats_data:`. -/
def fsCollectStep (stats : String → Option FsStatsPayload)
    (acc : List FileServer) (fs : FsIdentity) : List FileServer :=
  match stats (fs.extId.getD "") with
  | some st => acc ++ [mkFileServer fs st]
  | none => acc

/-- `NutanixExporter.get_file_servers` (lines 120-147): `listing` is the
identity call's outcome, `stats` maps a server id to its stats call's
outcome. -/
def get_file_servers (listing : Option (List FsIdentity))
    (stats : String → Option FsStatsPayload) : List FileServer :=
  match listing with
  | none => []
  | some l => l.foldl (fsCollectStep stats) []

/-- One page of a paged v3 listing: its `entities` plus the
already-defaulted `metadata.total_matches`. -/
structure Page (α : Type) where
  entities : List α
  total_matches : Nat
deriving DecidableEq, Repr

/-- Page size used by both VM listing loops (`length = 500`). -/
def pageLength : Nat := 500

/-- Body of the `while True` pagination loop of `get_vms` (lines 95-118)
and `collect_vms` (lines 246-264).  `server offset` is the outcome of the
request at that offset; `fuel` bounds the unbounded Python loop and the
accompanying theorem shows any fuel covering the entity count reaches the
loop's own exit. -/
def getVmsAux {α : Type} (server : Nat → Option (Page α)) :
    Nat → Nat → List α → List α
  | 0, _, acc => acc
  | fuel + 1, offset, acc =>
    match server offset with
    | none => acc
    | some page =>
      if page.entities.isEmpty then acc
      else
        let acc2 := acc ++ page.entities
        if page.total_matches ≤ acc2.length then acc2
        else getVmsAux server fuel (offset + pageLength) acc2

/-- `get_vms`: start the pagination loop at offset 0 with no VMs. -/
def getVms {α : Type} (server : Nat → Option (Page α)) (fuel : Nat) : List α :=
  getVmsAux server fuel 0 []

/-- A well-behaved remote listing holding `es`: every request at `offset`
succeeds and returns the next `pageLength` entities plus the true total. -/
def pagedServer {α : Type} (es : List α) : Nat → Option (Page α) :=
  fun offset => some ⟨(es.drop offset).take pageLength, es.length⟩

/-- `NutanixCollector.collect_hosts` entity gathering (lines 321-329): one
single request (`length` 500, no offset, no loop); a failed request
contributes no hosts. -/
def collectHostEntities {α : Type} (server : Nat → Option (Page α)) : List α :=
  match server 0 with
  | none => []
  | some page => page.entities

/-- One Prometheus gauge: label pair `(name, uuid)` to value, most recent
write first (`set` is last-write-wins per label set). -/
abbrev GaugeMap : Type := List ((String × String) × Nat)

/-- `gauge.labels(...).set(v)`. -/
def gaugeSet (g : GaugeMap) (k : String × String) (v : Nat) : GaugeMap :=
  (k, v) :: g

/-- Current value of a gauge for one label set (`none` if never written). -/
def gaugeValue (g : GaugeMap) (k : String × String) : Option Nat :=
  (g.find? (fun p => p.1 == k)).map (fun p => p.2)

/-- The five file-server gauges of the metrics collector. -/
structure FsGauges where
  capacity : GaugeMap
  used : GaugeMap
  available : GaugeMap
  files_count : GaugeMap
  connections : GaugeMap

/-- Gauge updates of `collect_file_servers` for one server whose stats
call succeeded (lines 425-447).  Each storage gauge is written only inside
`if capacity:` / `if used:` / `if available:`, so a zero value leaves that
gauge untouched; the two time-series gauges take the last point's value. -/
def publishFsStats (fs_name fs_uuid : String) (st : FsStatsPayload)
    (g : FsGauges) : FsGauges :=
  let k := (fs_name, fs_uuid)
  { capacity :=
      if st.storageCapacityBytes.getD 0 ≠ 0 then
        gaugeSet g.capacity k (st.storageCapacityBytes.getD 0)
      else g.capacity,
    used :=
      if st.usedCapacityBytes.getD 0 ≠ 0 then
        gaugeSet g.used k (st.usedCapacityBytes.getD 0)
      else g.used,
    available :=
      if st.availableCapacityBytes.getD 0 ≠ 0 then
        gaugeSet g.available k (st.availableCapacityBytes.getD 0)
      else g.available,
    files_count :=
      match st.numberOfFiles.getLast? with
      | some tp => gaugeSet g.files_count k (tp.value.getD 0)
      | none => g.files_count,
    connections :=
      match st.numberOfConnections.getLast? with
      | some tp => gaugeSet g.connections k (tp.value.getD 0)
      | none => g.connections }

/-- `NutanixCollector.collect_file_servers` (lines 404-453): walk the
identity listing, publishing stats for each server whose stats call
succeeded and leaving every gauge untouched for the others. -/
def collect_file_servers_metrics (listing : Option (List FsIdentity))
    (stats : String → Option FsStatsPayload) (g : FsGauges) : FsGauges :=
  match listing with
  | none => g
  | some l =>
    l.foldl
      (fun acc fs =>
        match stats (fs.extId.getD "unknown") with
        | some st => publishFsStats (fs.name.getD "unknown") (fs.extId.getD "unknown") st acc
        | none => acc)
      g

/-- Sample export environment used for concrete scenarios. -/
def sampleEnv : ExportEnv := ⟨"default", "", "2024-01-01", "2024-01-02"⟩

/-- Sample VM with a cluster reference, two sockets of two vCPUs, 4 GiB of
memory and one 10 GiB disk given in MiB. -/
def sampleVm : Vm :=
  ⟨⟨some "vm-1"⟩,
   ⟨some "vm-one", none, some ⟨some "c1", some "prod"⟩,
    some ⟨some 2, some 2, some 4096, [⟨some 0, some 10240⟩]⟩⟩,
   ⟨none⟩⟩

/-- Sample VM with no cluster reference at all. -/
def vmNoCluster : Vm := ⟨⟨some "vm-2"⟩, ⟨none, none, none, none⟩, ⟨none⟩⟩

/-- Sample file server reporting zero used bytes. -/
def sampleFsZero : FileServer := ⟨"fs1", "srv1", 0, 0, 0⟩

/-! Helper lemmas about the embedded functions. -/

theorem exportVmRows_snd (cm : List (String × String)) (env : ExportEnv) :
    ∀ (vms : List Vm) (sno : Nat),
      (exportVmRows cm env vms sno).2 = sno + 3 * vms.length := by
  intro vms
  induction vms with
  | nil => intro sno; simp [exportVmRows]
  | cons vm rest ih =>
    intro sno
    simp only [exportVmRows, List.length_cons, ih]
    omega

theorem exportVmRows_map {β : Type} (cm : List (String × String)) (env : ExportEnv)
    (f : Row → β) (v : Vm → List β)
    (hf : ∀ vm sno, (vmRowsFor cm env vm sno).map f = v vm) :
    ∀ (vms : List Vm) (sno : Nat),
      (exportVmRows cm env vms sno).1.map f = (vms.map v).flatten := by
  intro vms
  induction vms with
  | nil => intro sno; simp [exportVmRows]
  | cons vm rest ih =>
    intro sno
    simp only [exportVmRows, List.map_append, List.map_cons, List.flatten_cons, ih, hf]

theorem exportVmRows_map_sno (cm : List (String × String)) (env : ExportEnv) :
    ∀ (vms : List Vm) (sno : Nat),
      (exportVmRows cm env vms sno).1.map Row.sno = List.range' sno (3 * vms.length) := by
  intro vms
  induction vms with
  | nil => intro sno; simp [exportVmRows]
  | cons vm rest ih =>
    intro sno
    have happ := List.range'_append sno 3 (3 * rest.length) 1
    simp only [one_mul] at happ
    have h3 : 3 * (vm :: rest).length = 3 * rest.length + 3 := by
      simp [List.length_cons]; ring
    rw [h3, ← happ]
    simp only [exportVmRows, vmRowsFor, List.map_append, List.map_cons, List.map_nil, ih]
    simp [List.range']

theorem exportFsRows_snd (env : ExportEnv) :
    ∀ (fss : List FileServer) (sno : Nat),
      (exportFsRows env fss sno).2 = sno + (emittedFileServers fss).length := by
  intro fss
  induction fss with
  | nil => intro sno; simp [exportFsRows, emittedFileServers]
  | cons fs rest ih =>
    intro sno
    by_cases h : 0 < fs.used_bytes
    · simp [exportFsRows, h, ih, emittedFileServers, List.filter_cons]
      omega
    · simp [exportFsRows, h, ih, emittedFileServers, List.filter_cons]

theorem exportFsRows_map {β : Type} (env : ExportEnv)
    (f : Row → β) (v : FileServer → β)
    (hf : ∀ fs sno, f (fsRowFor env fs sno) = v fs) :
    ∀ (fss : List FileServer) (sno : Nat),
      (exportFsRows env fss sno).1.map f = (emittedFileServers fss).map v := by
  intro fss
  induction fss with
  | nil => intro sno; simp [exportFsRows, emittedFileServers]
  | cons fs rest ih =>
    intro sno
    by_cases h : 0 < fs.used_bytes
    · simp [exportFsRows, h, ih, hf, emittedFileServers, List.filter_cons]
    · simp [exportFsRows, h, ih, emittedFileServers, List.filter_cons]

theorem exportFsRows_map_sno (env : ExportEnv) :
    ∀ (fss : List FileServer) (sno : Nat),
      (exportFsRows env fss sno).1.map Row.sno
        = List.range' sno (emittedFileServers fss).length := by
  intro fss
  induction fss with
  | nil => intro sno; simp [exportFsRows, emittedFileServers]
  | cons fs rest ih =>
    intro sno
    by_cases h : 0 < fs.used_bytes
    · simp [exportFsRows, h, ih, emittedFileServers, List.filter_cons,
        List.range'_succ, fsRowFor]
    · simp [exportFsRows, h, ih, emittedFileServers, List.filter_cons]

theorem foldl_diskStep : ∀ (disks : List Disk) (n : Nat),
    disks.foldl diskStep n = n + (disks.map diskContribution).sum := by
  intro disks
  induction disks with
  | nil => intro n; simp
  | cons d rest ih =>
    intro n
    have hstep : diskStep n d = n + diskContribution d := by
      cases hb : d.disk_size_bytes with
      | none => simp [diskStep, diskContribution, hb]
      | some b =>
        by_cases h0 : b = 0
        · simp [diskStep, diskContribution, hb, h0]
        · simp [diskStep, diskContribution, hb, h0]
    simp only [List.foldl_cons, List.map_cons, List.sum_cons, hstep, ih]
    omega

theorem foldl_fsCollectStep (stats : String → Option FsStatsPayload) :
    ∀ (l : List FsIdentity) (acc : List FileServer),
      l.foldl (fsCollectStep stats) acc
        = acc ++ l.filterMap (fun fs => (stats (fs.extId.getD "")).map (mkFileServer fs)) := by
  intro l
  induction l with
  | nil => intro acc; simp
  | cons fs rest ih =>
    intro acc
    cases hs : stats (fs.extId.getD "") with
    | none => simp [fsCollectStep, hs, ih, List.filterMap_cons]
    | some st => simp [fsCollectStep, hs, ih, List.filterMap_cons]

theorem getVmsAux_stop {α : Type} (server : Nat → Option (Page α))
    (fuel offset : Nat) (acc : List α) (h : server offset = none) :
    getVmsAux server (fuel + 1) offset acc = acc := by
  simp [getVmsAux, h]

theorem getVmsAux_paged {α : Type} (es : List α) :
    ∀ (fuel offset : Nat), es.length ≤ offset + pageLength * fuel →
      getVmsAux (pagedServer es) fuel offset (es.take offset) = es := by
  intro fuel
  induction fuel with
  | zero =>
    intro offset h
    simp only [Nat.mul_zero, Nat.add_zero] at h
    simp [getVmsAux, List.take_of_length_le h]
  | succ fuel ih =>
    intro offset h
    rw [getVmsAux]
    simp only [pagedServer]
    by_cases hoff : es.length ≤ offset
    · have hdrop : es.drop offset = [] := List.drop_eq_nil_iff.mpr hoff
      simp [hdrop, List.take_of_length_le hoff]
    · push_neg at hoff
      have hne : ((es.drop offset).take pageLength).isEmpty = false := by
        rw [List.isEmpty_eq_false_iff_exists_mem]
        refine ⟨es.get ⟨offset, hoff⟩, ?_⟩
        rw [List.mem_take_iff_getElem]
        exact ⟨0, by simp [pageLength]; omega, by simp [List.getElem_drop]⟩
      have hacc2 : es.take offset ++ (es.drop offset).take pageLength
          = es.take (offset + pageLength) := (List.take_add es offset pageLength).symm
      rw [hne]
      simp only [Bool.false_eq_true, if_false, hacc2]
      by_cases htot : es.length ≤ (es.take (offset + pageLength)).length
      · have hlen : es.length ≤ offset + pageLength := by
          simpa [List.length_take] using htot
        simp only [List.length_append] at *
        rw [if_pos (by simpa [hacc2] using htot)]
        simpa [hacc2] using List.take_of_length_le hlen
      · rw [if_neg (by simpa [hacc2] using htot)]
        have := ih (offset + pageLength) (by rw [Nat.mul_succ] at h; omega)
        simpa [hacc2] using this

theorem getVms_paged {α : Type} (es : List α) (fuel : Nat)
    (h : es.length ≤ pageLength * fuel) :
    getVms (pagedServer es) fuel = es := by
  have := getVmsAux_paged es fuel 0 (by simpa using h)
  simpa [getVms] using this

theorem collectHostEntities_paged {α : Type} (es : List α) :
    collectHostEntities (pagedServer es) = es.take pageLength := by
  simp [collectHostEntities, pagedServer]

/-! Claim theorems. -/

/-- Claim C1, counterexample: a run over a snapshot holding one VM and one
file server (zero used bytes) emits exactly the three VM rows and no row
with meteredItem Cores, although the claim demands at least one Cores row
whenever some host has nonzero physical cores (the export takes no host
input at all, so the host population cannot change its output). -/
theorem c1_counterexample :
    (exportRows [("c1", "prod")] sampleEnv [sampleVm] [sampleFsZero]).map Row.meteredItem
      = ["vCPU", "Memory_GB", "Storage_GB"] ∧
    ((exportRows [("c1", "prod")] sampleEnv [sampleVm] [sampleFsZero]).map
        Row.meteredItem).all (fun s => s != "Cores") = true := by
  constructor
  · rfl
  · rfl

/-- Claim C1, amended: the billing export emits no host rows at all — no
emitted row ever has meteredItem Cores — and its output is the per-VM rows
followed by the file-server rows. -/
theorem c1_theorem : ∀ (cm : List (String × String)) (env : ExportEnv)
    (vms : List Vm) (fss : List FileServer),
    ((exportRows cm env vms fss).map Row.meteredItem).all (fun s => s != "Cores") = true ∧
    (exportRows cm env vms fss).map Row.entityType
      = (vms.map (fun _ => ["VM", "VM", "VM"])).flatten
        ++ (emittedFileServers fss).map (fun _ => "FileServer") := by
  intro cm env vms fss
  have hvm := exportVmRows_map cm env Row.meteredItem
    (fun _ => ["vCPU", "Memory_GB", "Storage_GB"]) (fun vm sno => rfl) vms 1
  have hfs := exportFsRows_map env Row.meteredItem (fun _ => "Files_TiB")
    (fun fs sno => rfl) fss (exportVmRows cm env vms 1).2
  have hevm := exportVmRows_map cm env Row.entityType
    (fun _ => ["VM", "VM", "VM"]) (fun vm sno => rfl) vms 1
  have hefs := exportFsRows_map env Row.entityType (fun _ => "FileServer")
    (fun fs sno => rfl) fss (exportVmRows cm env vms 1).2
  constructor
  · have hitems : (exportRows cm env vms fss).map Row.meteredItem
        = (vms.map (fun _ => ["vCPU", "Memory_GB", "Storage_GB"])).flatten
          ++ (emittedFileServers fss).map (fun _ => "Files_TiB") := by
      simp [exportRows, hvm, hfs]
    rw [hitems]
    simp only [List.all_append, Bool.and_eq_true, List.all_eq_true]
    constructor
    · intro s hs
      rcases List.mem_flatten.1 hs with ⟨l, hl, hsl⟩
      rcases List.mem_map.1 hl with ⟨vm, _, rfl⟩
      simp at hsl
      rcases hsl with rfl | rfl | rfl <;> decide
    · intro s hs
      rcases List.mem_map.1 hs with ⟨fs, _, rfl⟩
      decide
  · simp [exportRows, hevm, hefs]

/-- Claim C2, counterexample: with an empty lookup and an embedded
reference whose uuid and name fields are both present but empty, the code
resolves to the empty string while the claimed rule resolves to the
literal unknown. -/
theorem c2_counterexample :
    resolveClusterName [] ⟨some "", some ""⟩ = "" ∧
    resolveClusterNameSpec [] ⟨some "", some ""⟩ = "unknown" ∧
    (resolveClusterName [] ⟨some "", some ""⟩
        == resolveClusterNameSpec [] ⟨some "", some ""⟩) = false := by
  decide

/-- Claim C2, amended: the metrics collector resolves a child's cluster
name to the lookup's mapped name whenever the embedded uuid (defaulting to
the empty string when absent) is a key of the lookup — with no
non-emptiness check on the uuid; otherwise to the embedded name whenever
the name field is present, even when it is the empty string; and to the
literal unknown only when the name field is absent. -/
theorem c2_theorem : ∀ (cm : List (String × String)) (cr : ClusterRef),
    (∀ n, dictGet cm (cr.uuid.getD "") = some n → resolveClusterName cm cr = n) ∧
    (dictGet cm (cr.uuid.getD "") = none →
      ∀ nm, cr.name = some nm → resolveClusterName cm cr = nm) ∧
    (dictGet cm (cr.uuid.getD "") = none → cr.name = none →
      resolveClusterName cm cr = "unknown") := by
  intro cm cr
  refine ⟨fun n h => ?_, fun h nm hnm => ?_, fun h hn => ?_⟩
  · simp [resolveClusterName, h]
  · simp [resolveClusterName, h, hnm]
  · simp [resolveClusterName, h, hn]

/-- Witness for C2: lookup holding u1, reference with uuid u1 and embedded
name beta resolves to the mapped name alpha. -/
theorem c2_witness :
    resolveClusterName [("u1", "alpha")] ⟨some "u1", some "beta"⟩ = "alpha" :=
  ( c2_theorem [("u1", "alpha")] ⟨some "u1", some "beta"⟩).1 "alpha" (by decide)

/-- Claim C3, counterexample: a run whose VM listing yields zero VMs
returns None — no export file is written — although the claim demands an
export file with a header row. -/
theorem c3_counterexample : export_to_csv [] sampleEnv [] [] = none := rfl

/-- Claim C3, amended: when the VM listing yields zero VMs the billing
export returns None and writes no file; whenever at least one VM is
listed, the export always produces its row set (other step failures only
shrink the cluster lookup or the file-server list). -/
theorem c3_theorem :
    (∀ (cm : List (String × String)) (env : ExportEnv) (fss : List FileServer),
      export_to_csv cm env [] fss = none) ∧
    (∀ (cm : List (String × String)) (env : ExportEnv) (vms : List Vm)
        (fss : List FileServer), vms ≠ [] →
      (export_to_csv cm env vms fss).isSome = true) := by
  constructor
  · intro cm env fss; rfl
  · intro cm env vms fss h
    simp [export_to_csv, List.isEmpty_iff, h]

/-- Witness for C3: a singleton VM listing produces an export file. -/
theorem c3_witness : (export_to_csv [] sampleEnv [sampleVm] []).isSome = true :=
  c3_theorem.2 [] sampleEnv [sampleVm] [] (by decide)

/-- Claim C4, counterexample: one file server in the identity listing
whose stats call fails yields an empty result list — the server is
dropped, although the claim demands it be kept with zero defaults. -/
theorem c4_counterexample :
    get_file_servers (some [⟨some "fs1", some "srv1"⟩]) (fun _ => none) = [] := rfl

/-- Claim C4, amended: a file server whose stats call fails (or whose
identity listing fails) is dropped from the billing result; a server whose
stats call succeeds is included, with absent capacity, used and available
fields defaulting to zero. -/
theorem c4_theorem :
    (∀ stats, get_file_servers none stats = []) ∧
    (∀ (l : List FsIdentity) (stats : String → Option FsStatsPayload),
      get_file_servers (some l) stats
        = l.filterMap (fun fs => (stats (fs.extId.getD "")).map (mkFileServer fs))) := by
  constructor
  · intro stats; rfl
  · intro l stats
    simpa [get_file_servers] using foldl_fsCollectStep stats l []

/-- Claim C5, counterexample: a well-behaved server holding 501 host
entities yields only 500 collected host records — the host listing issues
one request and never pages, although the claim demands exactly N records
for N total entities. -/
theorem c5_counterexample :
    (collectHostEntities (pagedServer (List.replicate 501 (0 : Nat)))).length = 500 ∧
    (List.replicate 501 (0 : Nat)).length = 501 ∧
    ((collectHostEntities (pagedServer (List.replicate 501 (0 : Nat)))).length
        == (List.replicate 501 (0 : Nat)).length) = false := by
  have h1 : (collectHostEntities (pagedServer (List.replicate 501 (0 : Nat)))).length = 500 := by
    rw [collectHostEntities_paged, List.length_take, List.length_replicate]
    rfl
  have h2 : (List.replicate 501 (0 : Nat)).length = 501 := List.length_replicate 501 0
  refine ⟨h1, h2, ?_⟩
  rw [h1, h2]
  rfl

/-- Claim C5, amended: the VM listing uses full pagination — against a
well-behaved paged server holding N entities it collects exactly the N
entities, and a failed request stops paging keeping the rows accumulated
so far — while the host listing issues a single request of length 500 with
no pagination, collecting at most the first 500 entities. -/
theorem c5_theorem :
    (∀ (α : Type) (es : List α) (fuel : Nat), es.length ≤ pageLength * fuel →
      getVms (pagedServer es) fuel = es) ∧
    (∀ (α : Type) (server : Nat → Option (Page α)) (fuel offset : Nat) (acc : List α),
      server offset = none → getVmsAux server (fuel + 1) offset acc = acc) ∧
    (∀ (α : Type) (es : List α), collectHostEntities (pagedServer es) = es.take pageLength) :=
  ⟨fun _ es fuel h => getVms_paged es fuel h,
   fun _ server fuel offset acc h => getVmsAux_stop server fuel offset acc h,
   fun _ es => collectHostEntities_paged es⟩

/-- Witness for C5: three entities are fully collected in one page. -/
theorem c5_witness : getVms (pagedServer [10, 20, 30]) 1 = [10, 20, 30] :=
  c5_theorem.1 Nat [10, 20, 30] 1 (by decide)

/-- Claim C6, confirmed: the total disk bytes of a VM equal the sum over
its disks of disk_size_bytes when present and nonzero, else
disk_size_mib × 1024², and an empty disk list yields 0. -/
theorem c6_theorem :
    (∀ disks : List Disk, totalDiskBytes disks = (disks.map diskContribution).sum) ∧
    totalDiskBytes [] = 0 :=
  ⟨fun disks => by simpa [totalDiskBytes] using foldl_diskStep disks 0, rfl⟩

/-- Claim C7, confirmed: the export emits, for each VM in order, exactly
three rows carrying that VM's uuid with metered items vCPU, Memory_GB and
Storage_GB (emitted unconditionally, so also for zero quantities), and
all of them precede the file-server rows. -/
theorem c7_theorem : ∀ (cm : List (String × String)) (env : ExportEnv)
    (vms : List Vm) (fss : List FileServer),
    (exportRows cm env vms fss).map (fun r => (r.guid, r.meteredItem))
      = (vms.map (fun vm =>
          [(vmUuid vm, "vCPU"), (vmUuid vm, "Memory_GB"), (vmUuid vm, "Storage_GB")])).flatten
        ++ (emittedFileServers fss).map (fun fs => (fs.uuid, "Files_TiB")) := by
  intro cm env vms fss
  have hvm := exportVmRows_map cm env (fun r => (r.guid, r.meteredItem))
    (fun vm => [(vmUuid vm, "vCPU"), (vmUuid vm, "Memory_GB"), (vmUuid vm, "Storage_GB")])
    (fun vm sno => rfl) vms 1
  have hfs := exportFsRows_map env (fun r => (r.guid, r.meteredItem))
    (fun fs => (fs.uuid, "Files_TiB")) (fun fs sno => rfl) fss (exportVmRows cm env vms 1).2
  simp [exportRows, hvm, hfs]

/-- Claim C8, confirmed: within one export the sequence numbers of the
emitted rows, read in output order, are exactly 1, 2, 3, … with no gaps. -/
theorem c8_theorem : ∀ (cm : List (String × String)) (env : ExportEnv)
    (vms : List Vm) (fss : List FileServer),
    (exportRows cm env vms fss).map Row.sno
      = List.range' 1 (exportRows cm env vms fss).length := by
  intro cm env vms fss
  have hv := exportVmRows_map_sno cm env vms 1
  have hsnd := exportVmRows_snd cm env vms 1
  have hf := exportFsRows_map_sno env fss (exportVmRows cm env vms 1).2
  have hlenv : (exportVmRows cm env vms 1).1.length = 3 * vms.length := by
    have := congrArg List.length hv
    simpa using this
  have hlenf : (exportFsRows env fss (exportVmRows cm env vms 1).2).1.length
      = (emittedFileServers fss).length := by
    have := congrArg List.length hf
    simpa using this
  have happ := List.range'_append 1 (3 * vms.length) (emittedFileServers fss).length 1
  simp only [one_mul] at happ
  rw [hsnd] at hf hlenf
  simp only [exportRows, List.map_append, List.length_append, hv, hf, hsnd, hlenv, hlenf]
  rw [happ, Nat.add_comm (emittedFileServers fss).length (3 * vms.length)]

/-- Claim C9, confirmed: every VM row's accountId is that VM's resolved
cluster name — the lookup's value for its cluster uuid, falling back to
the configured account id when the uuid is no key of the lookup — and
every file-server row's accountId is the configured account id. -/
theorem c9_theorem : ∀ (cm : List (String × String)) (env : ExportEnv)
    (vms : List Vm) (fss : List FileServer),
    ((exportRows cm env vms fss).map Row.accountId
        = (vms.map (fun vm => List.replicate 3 (vmAccount cm env vm))).flatten
          ++ (emittedFileServers fss).map (fun _ => env.account_id)) ∧
    (∀ vm : Vm, dictGet cm (vmClusterUuid vm) = none →
      vmAccount cm env vm = env.account_id) := by
  intro cm env vms fss
  constructor
  · have hvm := exportVmRows_map cm env Row.accountId
      (fun vm => List.replicate 3 (vmAccount cm env vm)) (fun vm sno => rfl) vms 1
    have hfs := exportFsRows_map env Row.accountId (fun _ => env.account_id)
      (fun fs sno => rfl) fss (exportVmRows cm env vms 1).2
    simp [exportRows, hvm, hfs]
  · intro vm h
    simp [vmAccount, h]

/-- Witness for C9: a VM without cluster reference, against a lookup not
holding the empty uuid, gets the configured account id. -/
theorem c9_witness : vmAccount [("u1", "alpha")] sampleEnv vmNoCluster = "default" :=
  ( c9_theorem [("u1", "alpha")] sampleEnv [] []).2 vmNoCluster (by decide)

/-- Claim C10, confirmed: a file-server storage stat reported as 0 is
never written to its gauge — the gauge map is left untouched, so the value
previously published for the label set persists. -/
theorem c10_theorem : ∀ (n u : String) (st : FsStatsPayload) (g : FsGauges),
    (st.storageCapacityBytes.getD 0 = 0 →
      (publishFsStats n u st g).capacity = g.capacity) ∧
    (st.usedCapacityBytes.getD 0 = 0 → (publishFsStats n u st g).used = g.used) ∧
    (st.availableCapacityBytes.getD 0 = 0 →
      (publishFsStats n u st g).available = g.available) ∧
    (∀ k : String × String, st.usedCapacityBytes.getD 0 = 0 →
      gaugeValue (publishFsStats n u st g).used k = gaugeValue g.used k) := by
  intro n u st g
  refine ⟨fun h => ?_, fun h => ?_, fun h => ?_, fun k h => ?_⟩ <;>
    simp [publishFsStats, h]

/-- Witness for C10: publishing a stats payload whose fields are all
absent (hence read as 0) over a gauge holding 7 for the label set leaves
that previously published 7 in place. -/
theorem c10_witness :
    gaugeValue (publishFsStats "a" "u" ⟨none, none, none, [], []⟩
      ⟨[], [(("a", "u"), 7)], [], [], []⟩).used ("a", "u") = some 7 := by
  rw [( c10_theorem "a" "u" ⟨none, none, none, [], []⟩
    ⟨[], [(("a", "u"), 7)], [], [], []⟩).2.2.2 ("a", "u") rfl]
  rfl

end DarkSite
